import Mathlib

/-!
# Verification of the BharatPropChain frontend core

Shallow embedding of the two source files that implement the core under
specification:

* `src/frontend/payment-gateway.js` — the simulated payment/payout processor
  (`PaymentGateway`), an IIFE holding three mutable slots (`currentOrder`,
  `resolveCallback`, `rejectCallback`) and exposing `triggerCheckout`,
  `process`, `complete`, `cancel`.
* `src/frontend/app.js` — wallet/session management
  (`handleWalletConnection`, `disconnectWallet`, `saveToken`, `clearToken`)
  and the trading orchestration (`buyTokens`, `sellTokens`).

JavaScript numbers appearing in price arithmetic are modelled as rationals
(`ℚ`); values that may be `undefined` are modelled as `Option`; a statement
that would throw a `TypeError` (e.g. reading a field of `null`) makes the
embedded function return `none`.  DOM manipulation is modelled only to the
extent the control flow depends on it (which view of the modal is shown);
purely cosmetic updates (colours, icon glyphs, label text) are omitted.
Promise resolution is modelled by events: each pending promise is identified
by a `Nat`, and an operation returns the list of resolution/rejection events
it fires (the JS engine then delivers them to the awaiting caller).
`Math.random().toString(36).substring(7).toUpperCase()` suffixes are
modelled as explicit string parameters.
-/

namespace PaymentGateway

/-- The argument object of `triggerCheckout`
(`{ amount, name, email, propertyId, mode }`); `mode` is absent for the buy
flow and `'sell'` for the payout flow, so it is an `Option String` compared
against `"sell"` exactly as the source compares `options.mode === 'sell'`. -/
structure CheckoutOptions where
  amount : ℚ
  name : Option String
  email : Option String
  propertyId : String
  mode : Option String := none
deriving DecidableEq

/-- `currentOrder` after `currentOrder = { ...options, orderRef }`; the
`txnId` field is added later by `process`'s timeout, hence an `Option`. -/
structure Order where
  amount : ℚ
  name : Option String
  email : Option String
  propertyId : String
  mode : Option String
  orderRef : String
  txnId : Option String := none
deriving DecidableEq

/-- Which pane of the gateway modal is displayed (`pgContent` /
`pgProcessing` / `pgSuccess`). -/
inductive PGView where
  | methods
  | processing
  | success
deriving DecidableEq

/-- The mutable state of the `PaymentGateway` IIFE: the three closure
variables plus the modal's display state.  Callbacks are identified by the
`Nat` id of the promise they settle. -/
structure GatewayState where
  currentOrder : Option Order
  resolveCallback : Option Nat
  rejectCallback : Option Nat
  modalVisible : Bool
  view : PGView
deriving DecidableEq

/-- State before any checkout: all three closure variables are `null` and
the modal has not been shown. -/
def initialState : GatewayState :=
  { currentOrder := none
    resolveCallback := none
    rejectCallback := none
    modalVisible := false
    view := PGView.methods }

/-- The object passed to `resolveCallback` by `complete`:
`{ success: true, payment_ref: currentOrder.txnId, order_id: currentOrder.orderRef }`.
`payment_ref` is `none` when `currentOrder.txnId` was never assigned. -/
structure PaymentResult where
  success : Bool
  payment_ref : Option String
  order_id : String
deriving DecidableEq

/-- The object passed to `rejectCallback` by `cancel`:
`{ success: false, error: 'User cancelled' }`. -/
structure RejectInfo where
  success : Bool
  error : String
deriving DecidableEq

/-- A promise-settlement event: which pending promise is resolved or
rejected, and with what value. -/
inductive PEvent where
  | resolveEv (pid : Nat) (r : PaymentResult)
  | rejectEv (pid : Nat) (e : RejectInfo)
deriving DecidableEq

/-- `triggerCheckout(options)` — lines 89–167 of `payment-gateway.js`.
A fresh pending promise (id `pid`) is created and returned; `orderRef` is
the mode prefix (`'SELL_'` when `options.mode === 'sell'`, else `'ORDER_'`)
followed by a random suffix (parameter `suffix`); the closure slots are
overwritten unconditionally — the source contains no busy guard — and the
modal is shown with the method-selection pane.  The second component is the
list of promise events fired during the call, which is always empty: the
returned promise stays pending and no previously stored callback is
invoked. -/
def triggerCheckout (_s : GatewayState) (options : CheckoutOptions)
    (suffix : String) (pid : Nat) : GatewayState × List PEvent :=
  let isSell := options.mode == some "sell"
  let orderRef := (if isSell then "SELL_" else "ORDER_") ++ suffix
  ({ currentOrder := some
      { amount := options.amount
        name := options.name
        email := options.email
        propertyId := options.propertyId
        mode := options.mode
        orderRef := orderRef
        txnId := none }
     resolveCallback := some pid
     rejectCallback := some pid
     modalVisible := true
     view := PGView.methods }, [])

/-- The synchronous part of `process(method)` — lines 169–175: reads
`currentOrder.mode` (a `TypeError`, i.e. `none`, when `currentOrder` is
`null`) to compute `isSell`, and switches the modal to the processing pane.
Returns the new state together with the captured `isSell` value, which the
`setTimeout` closure uses 2.5 s later. -/
def processStart (s : GatewayState) : Option (GatewayState × Bool) :=
  match s.currentOrder with
  | none => none
  | some o =>
      let isSell := o.mode == some "sell"
      some ({ s with view := PGView.processing }, isSell)

/-- The body of `process`'s `setTimeout` — lines 177–184: after the fixed
artificial delay it shows the success pane, generates
`txnId = (isSell ? 'PAYOUT_' : 'TXN_') + <random suffix>` using the
`isSell` captured when `process` was called, and assigns
`currentOrder.txnId = txnId` (a `TypeError`, i.e. `none`, if `currentOrder`
is `null` when the timer fires). -/
def processFire (s : GatewayState) (capturedIsSell : Bool)
    (suffix : String) : Option GatewayState :=
  match s.currentOrder with
  | none => none
  | some o =>
      let txnId := (if capturedIsSell then "PAYOUT_" else "TXN_") ++ suffix
      some { s with
              currentOrder := some { o with txnId := some txnId }
              view := PGView.success }

/-- `complete()` — lines 187–194: hides the modal and, if `resolveCallback`
is non-null, resolves the outstanding promise with
`{ success: true, payment_ref: currentOrder.txnId, order_id: currentOrder.orderRef }`
(reading those fields is a `TypeError`, i.e. `none`, when `currentOrder` is
`null`).  Nothing resets `currentOrder`, `resolveCallback` or
`rejectCallback`. -/
def complete (s : GatewayState) : Option (GatewayState × List PEvent) :=
  let s' := { s with modalVisible := false }
  match s.resolveCallback with
  | none => some (s', [])
  | some pid =>
      match s.currentOrder with
      | none => none
      | some o =>
          some (s', [PEvent.resolveEv pid
            { success := true
              payment_ref := o.txnId
              order_id := o.orderRef }])

/-- `cancel()` — lines 196–199: hides the modal and, if `rejectCallback` is
non-null, rejects the outstanding promise with
`{ success: false, error: 'User cancelled' }`.  Nothing resets
`currentOrder`, `resolveCallback` or `rejectCallback`. -/
def cancel (s : GatewayState) : GatewayState × List PEvent :=
  let s' := { s with modalVisible := false }
  match s.rejectCallback with
  | none => (s', [])
  | some pid => (s', [PEvent.rejectEv pid { success := false, error := "User cancelled" }])

/-- `p` is a literal prefix of `s`. -/
def strHasPrefix (p s : String) : Prop := ∃ r, s = p ++ r

end PaymentGateway

namespace App

open PaymentGateway

/-- The `currentUser` profile object; each field may be `undefined` (the
login response's `user`, or the `{ wallet_address: walletAddress }` object
built in the non-login branch, carries only some of them). -/
structure User where
  wallet_address : Option String := none
  name : Option String := none
  email : Option String := none
deriving DecidableEq

/-- In-memory globals of `app.js` (`accessToken`, `currentUser`) together
with the three `localStorage` entries used for the session
(`'accessToken'`, `'walletAddress'`, `'isDemoMode'`); `none` means the key
is absent from storage. -/
structure SessionState where
  accessToken : Option String
  currentUser : Option User
  storedToken : Option String
  storedWallet : Option String
  storedDemo : Option String
deriving DecidableEq

/-- The parsed JSON of the `/api/auth/register` response together with the
HTTP status the code inspects (`response.status === 400`). -/
structure RegisterResponse where
  status : Nat
  success : Bool
  access_token : Option String := none
deriving DecidableEq

/-- The parsed JSON of the `/api/auth/login` response. -/
structure LoginResponse where
  access_token : Option String := none
  user : Option User := none
deriving DecidableEq

/-- `handleWalletConnection(accounts, isDemoMode)` — lines 84–136 of
`app.js`, with the two backend responses supplied by the environment.
If `data.success || response.status === 400` the code performs the
`/api/auth/login` call and adopts `loginData.access_token` and
`loginData.user`; otherwise it adopts `data.access_token` and sets
`currentUser = { wallet_address: walletAddress }`.  It then runs
`saveToken(accessToken)` and stores the wallet address and demo flag in
`localStorage`.  `localStorage.setItem` coerces its value to a string, so
`saveToken(undefined)` leaves the `accessToken` key present holding the
literal string `undefined` (just as the boolean demo flag is stored as
`true`/`false`); the key is never absent after a connection attempt
reaches this point.  The login request is only issued in the first branch,
so the `LoginResponse` argument is unread in the second. -/
def handleWalletConnection (s : SessionState) (walletAddress : String)
    (isDemoMode : Bool) (reg : RegisterResponse) (login : LoginResponse) :
    SessionState :=
  let (tok, usr) :=
    if reg.success || reg.status == 400 then
      (login.access_token, login.user)
    else
      (reg.access_token, some ({ wallet_address := some walletAddress } : User))
  { s with
      accessToken := tok
      currentUser := usr
      storedToken := some (tok.getD "undefined")
      storedWallet := some walletAddress
      storedDemo := some (if isDemoMode then "true" else "false") }

/-- Outcome of `await peraWallet.disconnect()` when a provider object is
attached. -/
inductive ProviderDisconnect where
  | succeeds
  | throws
deriving DecidableEq

/-- `disconnectWallet()` — lines 138–160 of `app.js`.  The whole body sits
in one `try`: when a provider is attached (`peraWallet` non-null) and its
`disconnect()` rejects, control jumps to the `catch` (which only logs), so
`clearToken()` and the two `localStorage.removeItem` calls are skipped and
the session state is left untouched.  Otherwise `clearToken()` clears the
stored token, the in-memory `accessToken` and `currentUser`, and the wallet
address and demo-mode keys are removed. -/
def disconnectWallet (s : SessionState)
    (provider : Option ProviderDisconnect) : SessionState :=
  match provider with
  | some ProviderDisconnect.throws => s
  | _ =>
      { accessToken := none
        currentUser := none
        storedToken := none
        storedWallet := none
        storedDemo := none }

/-- The parsed JSON of a `/api/trade/buy` or `/api/trade/sell` response. -/
structure TradeResponse where
  success : Bool
  error : Option String := none
  transaction : Option String := none
deriving DecidableEq

/-- How the awaited settlement `apiCall` turns out for the caller: either
the fetch resolves and the body parses, yielding a `TradeResponse`, or the
call throws (network failure, non-JSON body) an `Error` whose `message` is
a string — that exception propagates into the trading function's own
`catch`. -/
inductive SettleCallOutcome where
  | response (data : TradeResponse)
  | thrown (message : String)
deriving DecidableEq

/-- How the promise returned by `PaymentGateway.triggerCheckout` settles
for the `await` in `buyTokens` / `sellTokens`: resolution with a
`PaymentResult` (what `complete()` passes) or rejection with the
`{ success: false, error }` object (what `cancel()` passes).  The
rejection object has no `message` field. -/
inductive GatewayOutcome where
  | resolved (r : PaymentResult)
  | rejected (error : String)
deriving DecidableEq

/-- The `property` object of the `/api/properties/{id}` response, reduced
to the two fields the trading code reads. -/
structure PropertyInfo where
  total_value : ℚ
  total_tokens : ℚ
deriving DecidableEq

/-- A network request or gateway invocation issued by a trading function,
recorded in order. -/
inductive NetCall where
  | getProperty (propertyId : String)
  | gatewayCheckout (options : CheckoutOptions)
  | tradeBuy (property_id : String) (token_amount : ℚ)
      (payment_ref : Option String) (order_id : String)
  | tradeSell (property_id : String) (token_amount : ℚ)
      (payment_ref : Option String) (order_id : String)
deriving DecidableEq

/-- True exactly for the backend settlement endpoints
(`/api/trade/buy`, `/api/trade/sell`). -/
def NetCall.isSettlement : NetCall → Bool
  | NetCall.tradeBuy _ _ _ _ => true
  | NetCall.tradeSell _ _ _ _ => true
  | _ => false

/-- The distinct exits of `buyTokens`, one per alert/return site:
* `notConnected` — `alert('Please connect your wallet first')`, return;
* `paymentFailedAlert` — `alert('Payment cancelled or failed.')`
  (the `!paymentResult.success` branch), return;
* `cancelledSilent` — the `catch` arm `error.success === false`
  (gateway rejection): silent `return`;
* `settlementFailed e` — `alert('Purchase failed after payment: ' +
  (data.error || 'Unknown error'))`;
* `tradeErrorAlert m` — the `catch` arm for a thrown `Error` (its
  `success` field is `undefined`, not `false`):
  `alert('Failed to buy tokens: ' + error.message)`; reached when the
  settlement `apiCall` throws after an approved payment;
* `purchased t` — `alert('Payment Confirmed & Tokens Purchased
  Successfully!')`, returns `data.transaction`. -/
inductive BuyOutcome where
  | notConnected
  | paymentFailedAlert
  | cancelledSilent (error : String)
  | settlementFailed (error : Option String)
  | tradeErrorAlert (message : String)
  | purchased (transaction : Option String)
deriving DecidableEq

/-- `buyTokens(propertyId, tokenAmount)` — lines 398–443 of `app.js`.  The
environment supplies the pricing response, how the gateway promise settles
and how the settlement call turns out (consulted only if the settlement
request is issued).  Returns the ordered list of calls issued and the exit
taken.  `pricePerToken = property.total_value / property.total_tokens`,
`totalAmount = pricePerToken * tokenAmount`; the checkout options carry no
`mode` field in the buy direction.  A gateway rejection and a thrown
settlement call both land in the one `catch`, which separates them by the
`error.success === false` test: the rejection object returns silently, a
thrown `Error` reaches the `Failed to buy tokens` alert. -/
def buyTokens (accessToken : Option String) (currentUser : Option User)
    (propertyId : String) (tokenAmount : ℚ) (pricing : PropertyInfo)
    (gw : GatewayOutcome) (settle : SettleCallOutcome) :
    List NetCall × BuyOutcome :=
  match accessToken with
  | none => ([], BuyOutcome.notConnected)
  | some _ =>
      let pricePerToken := pricing.total_value / pricing.total_tokens
      let totalAmount := pricePerToken * tokenAmount
      let options : CheckoutOptions :=
        { amount := totalAmount
          name := match currentUser with
                  | some u => u.name
                  | none => some "Valued Investor"
          email := match currentUser with
                   | some u => u.email
                   | none => some ""
          propertyId := propertyId
          mode := none }
      let calls := [NetCall.getProperty propertyId,
                    NetCall.gatewayCheckout options]
      match gw with
      | GatewayOutcome.rejected e => (calls, BuyOutcome.cancelledSilent e)
      | GatewayOutcome.resolved r =>
          if r.success = false then
            (calls, BuyOutcome.paymentFailedAlert)
          else
            let calls := calls ++ [NetCall.tradeBuy propertyId tokenAmount
              r.payment_ref r.order_id]
            match settle with
            | SettleCallOutcome.thrown msg =>
                (calls, BuyOutcome.tradeErrorAlert msg)
            | SettleCallOutcome.response data =>
                if data.success then
                  (calls, BuyOutcome.purchased data.transaction)
                else
                  (calls, BuyOutcome.settlementFailed data.error)

/-- The distinct exits of `sellTokens`, one per alert/return site:
* `notConnected` — `alert('Please connect your wallet first')`;
* `payoutFailedAlert` — `alert('Payout cancelled or failed.')`
  (the `!payoutResult.success` branch), returns `null`;
* `sellErrorCatch m` — the single `catch`:
  `alert('Failed to sell tokens: ' + error.message)`, returns `null`.
  Both a gateway rejection (whose object has no `message` field, so
  `m = none`) and a thrown settlement call (an `Error` with message `msg`,
  so `m = some msg`) exit through this one site;
* `saleFailed e` — `alert('Sale failed: ' + (data.error || 'Unknown
  error'))`, returns `null`;
* `sold` — `alert('Payout Successful! ...')`, returns `data`. -/
inductive SellOutcome where
  | notConnected
  | payoutFailedAlert
  | sellErrorCatch (message : Option String)
  | saleFailed (error : Option String)
  | sold
deriving DecidableEq

/-- `sellTokens(propertyId, tokenAmount)` — lines 445–492 of `app.js`.
Mirrors `buyTokens` with `mode: 'sell'` in the checkout options and the
`/api/trade/sell` settlement endpoint; its `catch` has no
`error.success === false` test, so a gateway rejection reaches the generic
`alert('Failed to sell tokens: ' + error.message)` with `error.message`
undefined — and a settlement call that throws after an approved payout
reaches exactly the same alert statement with the message of the thrown
`Error`. -/
def sellTokens (accessToken : Option String) (currentUser : Option User)
    (propertyId : String) (tokenAmount : ℚ) (pricing : PropertyInfo)
    (gw : GatewayOutcome) (settle : SettleCallOutcome) :
    List NetCall × SellOutcome :=
  match accessToken with
  | none => ([], SellOutcome.notConnected)
  | some _ =>
      let pricePerToken := pricing.total_value / pricing.total_tokens
      let totalPayout := pricePerToken * tokenAmount
      let options : CheckoutOptions :=
        { amount := totalPayout
          name := match currentUser with
                  | some u => u.name
                  | none => some "Valued Investor"
          email := match currentUser with
                   | some u => u.email
                   | none => some ""
          propertyId := propertyId
          mode := some "sell" }
      let calls := [NetCall.getProperty propertyId,
                    NetCall.gatewayCheckout options]
      match gw with
      | GatewayOutcome.rejected _ => (calls, SellOutcome.sellErrorCatch none)
      | GatewayOutcome.resolved r =>
          if r.success = false then
            (calls, SellOutcome.payoutFailedAlert)
          else
            let calls := calls ++ [NetCall.tradeSell propertyId tokenAmount
              r.payment_ref r.order_id]
            match settle with
            | SettleCallOutcome.thrown msg =>
                (calls, SellOutcome.sellErrorCatch (some msg))
            | SettleCallOutcome.response data =>
                if data.success then
                  (calls, SellOutcome.sold)
                else
                  (calls, SellOutcome.saleFailed data.error)

/-- The amount carried by the first gateway invocation in a call list, if
any. -/
def gatewayAmount? : List NetCall → Option ℚ
  | [] => none
  | NetCall.gatewayCheckout o :: _ => some o.amount
  | _ :: rest => gatewayAmount? rest

/-- The literal text `alert`ed at each `buyTokens` exit (`none` for the
silent cancelled return); JavaScript string concatenation renders an
absent operand as the string `undefined`, and the source writes
`data.error || 'Unknown error'`. -/
def buyAlertText : BuyOutcome → Option String
  | BuyOutcome.notConnected => some "Please connect your wallet first"
  | BuyOutcome.paymentFailedAlert => some "Payment cancelled or failed."
  | BuyOutcome.cancelledSilent _ => none
  | BuyOutcome.settlementFailed e =>
      some ("Purchase failed after payment: " ++ e.getD "Unknown error")
  | BuyOutcome.tradeErrorAlert m =>
      some ("Failed to buy tokens: " ++ m)
  | BuyOutcome.purchased _ =>
      some "Payment Confirmed & Tokens Purchased Successfully!"

/-- The literal text `alert`ed at each `sellTokens` exit; in the catch
exit the `+ error.message` operand renders as the string `undefined` when
the caught value (a gateway rejection object) has no `message` field. -/
def sellAlertText : SellOutcome → String
  | SellOutcome.notConnected => "Please connect your wallet first"
  | SellOutcome.payoutFailedAlert => "Payout cancelled or failed."
  | SellOutcome.sellErrorCatch m =>
      "Failed to sell tokens: " ++ m.getD "undefined"
  | SellOutcome.saleFailed e =>
      "Sale failed: " ++ e.getD "Unknown error"
  | SellOutcome.sold => "Payout Successful! Tokens debited from your account."

end App

namespace PaymentGateway

/-- Sample buy-direction checkout options for concrete instantiations. -/
def sampleOptions : CheckoutOptions :=
  { amount := 500000
    name := some "Demo User"
    email := some "demo@example.com"
    propertyId := "PROP001"
    mode := none }

/-- Sample payout-direction checkout options for concrete instantiations. -/
def sampleSellOptions : CheckoutOptions :=
  { sampleOptions with mode := some "sell" }

/-- Gateway state with one open order: the result of a first
`triggerCheckout` from the initial state (promise id 0, suffix `AAA`). -/
def openState : GatewayState :=
  (triggerCheckout initialState sampleOptions "AAA" 0).1

/-- C1: the claim as stated is false.  With the order of `openState` open
(promise id 0 pending), a second `triggerCheckout` call fires no rejection
event (its fresh promise, id 1, simply becomes the installed callback
pair), and it does transition the machine: `currentOrder` is replaced with
the new order and the pending resolve/reject pair of the original order is
replaced by that of the new call, so the original order is lost. -/
theorem C1_second_checkout_not_rejected_cex :
    (triggerCheckout openState sampleSellOptions "BBB" 1).2 = [] ∧
    (triggerCheckout openState sampleSellOptions "BBB" 1).1.currentOrder ≠
      openState.currentOrder ∧
    (triggerCheckout openState sampleSellOptions "BBB" 1).1.resolveCallback = some 1 ∧
    openState.resolveCallback = some 0 ∧
    (triggerCheckout openState sampleSellOptions "BBB" 1).1.rejectCallback = some 1 ∧
    openState.rejectCallback = some 0 := by
  refine ⟨rfl, ?_, rfl, rfl, rfl, rfl⟩
  decide

/-- C1 (amended): `triggerCheckout` contains no busy guard.  A call made
while an order is already open is not rejected (no promise event fires at
entry) and the state machine does transition: the open order is overwritten
by the new order built from the new options, and the pending resolve/reject
callback pair of the original order is replaced by the new call's fresh
pair, so the original order and its callbacks are discarded. -/
theorem C1_second_checkout_overwrites (s : GatewayState)
    (_hopen : s.currentOrder.isSome = true)
    (options : CheckoutOptions) (suffix : String) (pid : Nat) :
    (triggerCheckout s options suffix pid).2 = [] ∧
    (triggerCheckout s options suffix pid).1.currentOrder = some
      { amount := options.amount
        name := options.name
        email := options.email
        propertyId := options.propertyId
        mode := options.mode
        orderRef := (if options.mode == some "sell" then "SELL_" else "ORDER_")
          ++ suffix
        txnId := none } ∧
    (triggerCheckout s options suffix pid).1.resolveCallback = some pid ∧
    (triggerCheckout s options suffix pid).1.rejectCallback = some pid := by
  exact ⟨rfl, rfl, rfl, rfl⟩

/-- Witness for `C1_second_checkout_overwrites` at the concrete open
state. -/
theorem C1_second_checkout_overwrites_witness :
    (triggerCheckout openState sampleSellOptions "BBB" 1).1.resolveCallback
      = some 1 :=
  (C1_second_checkout_overwrites openState (by decide) sampleSellOptions
    "BBB" 1).2.2.1

end PaymentGateway

namespace PaymentGateway

/-- C2: the claim as stated is false.  After `complete()` on the concrete
open state (and likewise after `cancel()`), `currentOrder` is still
populated and the resolve/reject callback pair is still installed: neither
function resets the closure slots, so the machine is not returned to an
empty-slot idle state. -/
theorem C2_slot_not_cleared_cex :
    (complete openState).map
      (fun p => (p.1.currentOrder.isSome, p.1.resolveCallback, p.1.rejectCallback))
      = some (true, some 0, some 0) ∧
    ((cancel openState).1.currentOrder.isSome,
      (cancel openState).1.resolveCallback,
      (cancel openState).1.rejectCallback) = (true, some 0, some 0) := by
  exact ⟨rfl, rfl⟩

/-- C2 (amended): `complete()` resolves the outstanding promise and
`cancel()` rejects it, and both hide the modal, but neither clears the
order slot: `currentOrder`, `resolveCallback` and `rejectCallback` keep
exactly their previous values, so the stale order and callbacks remain
until the next `triggerCheckout` overwrites them. -/
theorem C2_complete_cancel_keep_slot (s s' : GatewayState)
    (evs : List PEvent) (h : complete s = some (s', evs)) :
    s'.currentOrder = s.currentOrder ∧
    s'.resolveCallback = s.resolveCallback ∧
    s'.rejectCallback = s.rejectCallback ∧
    s'.modalVisible = false ∧
    (cancel s).1.currentOrder = s.currentOrder ∧
    (cancel s).1.resolveCallback = s.resolveCallback ∧
    (cancel s).1.rejectCallback = s.rejectCallback := by
  have hs' : s' = { s with modalVisible := false } := by
    unfold complete at h
    cases hr : s.resolveCallback <;> rw [hr] at h
    · exact (congrArg Prod.fst (Option.some.inj h)).symm
    · cases ho : s.currentOrder <;> rw [ho] at h
      · exact Option.noConfusion h
      · exact (congrArg Prod.fst (Option.some.inj h)).symm
  have hc : (cancel s).1 = { s with modalVisible := false } := by
    unfold cancel
    cases s.rejectCallback <;> rfl
  rw [hs', hc]
  exact ⟨rfl, rfl, rfl, rfl, rfl, rfl, rfl⟩

/-- Witness for `C2_complete_cancel_keep_slot` at the concrete open
state. -/
theorem C2_complete_cancel_keep_slot_witness :
    ({ openState with modalVisible := false } : GatewayState).currentOrder
      = openState.currentOrder :=
  (C2_complete_cancel_keep_slot openState
    { openState with modalVisible := false }
    [PEvent.resolveEv 0
      { success := true
        payment_ref := none
        order_id := "ORDER_" ++ "AAA" }] rfl).1

/-- Helper for C9: for either value of the mode flag, the reference prefix
chosen at order creation differs from the transaction-id prefix chosen at
the end of processing. -/
theorem refPrefixNeTxn (b : Bool) :
    (if b then ("SELL_" : String) else "ORDER_")
      ≠ (if b then ("PAYOUT_" : String) else "TXN_") := by
  cases b <;> decide

/-- C9: confirmed.  Running a full checkout (order creation, then the
processing delay) from any options: the generated order reference carries
the mode prefix (`SELL_` for the payout mode, `ORDER_` for the payment
mode — distinct strings), the generated `transactionId` carries the prefix
matching the same mode flag (`PAYOUT_` resp. `TXN_` — also distinct
across modes), and for the same order the transaction-id prefix always
differs from the reference prefix. -/
theorem C9_mode_specific_prefixes (options : CheckoutOptions)
    (rs ts : String) (pid : Nat) :
    ∃ s2 isSell s3 o txn,
      processStart (triggerCheckout initialState options rs pid).1
        = some (s2, isSell) ∧
      processFire s2 isSell ts = some s3 ∧
      s3.currentOrder = some o ∧
      o.txnId = some txn ∧
      isSell = (options.mode == some "sell") ∧
      o.orderRef = (if isSell then "SELL_" else "ORDER_") ++ rs ∧
      txn = (if isSell then "PAYOUT_" else "TXN_") ++ ts ∧
      strHasPrefix (if isSell then "SELL_" else "ORDER_") o.orderRef ∧
      strHasPrefix (if isSell then "PAYOUT_" else "TXN_") txn ∧
      (if isSell then ("SELL_" : String) else "ORDER_")
        ≠ (if isSell then ("PAYOUT_" : String) else "TXN_") ∧
      ("SELL_" : String) ≠ "ORDER_" ∧
      ("PAYOUT_" : String) ≠ "TXN_" := by
  refine ⟨_, _, _, _, _, rfl, rfl, rfl, rfl, rfl, rfl, rfl,
    ⟨rs, rfl⟩, ⟨ts, rfl⟩, refPrefixNeTxn _, by decide, by decide⟩

/-- C10: confirmed.  If `complete()` is called while an order is open but
`process` has not yet assigned a `transactionId` — whether `process` was
never called, or it was called and its timeout has not fired — the
outstanding promise still resolves with `success: true`, an absent
(`undefined`) `payment_ref`, and the `order_id` equal to the reference
generated at checkout. -/
theorem C10_complete_before_txnid (options : CheckoutOptions)
    (rs : String) (pid : Nat) :
    (complete (triggerCheckout initialState options rs pid).1).map Prod.snd
      = some [PEvent.resolveEv pid
        { success := true
          payment_ref := none
          order_id := (if options.mode == some "sell" then "SELL_"
            else "ORDER_") ++ rs }] ∧
    ∃ s2 isSell,
      processStart (triggerCheckout initialState options rs pid).1
        = some (s2, isSell) ∧
      (complete s2).map Prod.snd
        = some [PEvent.resolveEv pid
          { success := true
            payment_ref := none
            order_id := (if options.mode == some "sell" then "SELL_"
              else "ORDER_") ++ rs }] := by
  exact ⟨rfl, _, _, rfl, rfl⟩

end PaymentGateway

namespace App

/-- Session state with every field absent: the result a full clear should
produce, and a convenient starting state. -/
def emptySession : SessionState :=
  { accessToken := none
    currentUser := none
    storedToken := none
    storedWallet := none
    storedDemo := none }

/-- A fully connected sample session for concrete instantiations. -/
def connectedSession : SessionState :=
  { accessToken := some "tok123"
    currentUser := some { wallet_address := some "ADDR1" }
    storedToken := some "tok123"
    storedWallet := some "ADDR1"
    storedDemo := some "false" }

/-- C3: the claim as stated is false.  When a real wallet provider is
attached and its own `disconnect()` call throws, `disconnectWallet` leaves
the whole session untouched: the exception jumps over `clearToken()` and
both `localStorage.removeItem` calls into the `catch`, so none of the three
persisted fields nor the in-memory session is cleared. -/
theorem C3_disconnect_skips_clear_cex :
    disconnectWallet connectedSession (some ProviderDisconnect.throws)
      = connectedSession ∧
    connectedSession.storedToken = some "tok123" ∧
    connectedSession.storedWallet = some "ADDR1" ∧
    connectedSession.storedDemo = some "false" ∧
    connectedSession.accessToken = some "tok123" := by
  exact ⟨rfl, rfl, rfl, rfl, rfl⟩

/-- C3 (amended): when no provider is attached, or the provider disconnect
succeeds, `disconnectWallet` clears all three persisted session fields and
the in-memory session together; but when the provider disconnect throws,
the error is merely logged (the operation itself does not fail) and no
clearing occurs — every session field keeps its previous value. -/
theorem C3_disconnect_clear_behaviour (s : SessionState)
    (p : Option ProviderDisconnect)
    (h : p ≠ some ProviderDisconnect.throws) :
    disconnectWallet s p = emptySession ∧
    disconnectWallet s (some ProviderDisconnect.throws) = s := by
  refine ⟨?_, rfl⟩
  match p with
  | none => rfl
  | some ProviderDisconnect.succeeds => rfl
  | some ProviderDisconnect.throws => exact absurd rfl h

/-- Witness for `C3_disconnect_clear_behaviour`: disconnecting the sample
connected session with no provider attached clears everything. -/
theorem C3_disconnect_clear_behaviour_witness :
    disconnectWallet connectedSession none = emptySession :=
  (C3_disconnect_clear_behaviour connectedSession none (by decide)).1

/-- C4: the claim as stated is false, in two respects.  First, with a
registration response that reports plain success (`success: true`, HTTP
201) and carries its own token `REG`, the manager still performs the login
fallback and adopts the login token `LOGIN`, not the registration token —
the `data.success || response.status === 400` test sends every successful
registration down the login path.  Second, with a registration response
that fails with a non-400 status and no token, the resulting
`identityToken` (in-memory `accessToken`) is left unset. -/
theorem C4_registration_adoption_cex :
    (handleWalletConnection emptySession "W1" false
      { status := 201, success := true, access_token := some "REG" }
      { access_token := some "LOGIN"
        user := some { wallet_address := some "W1" } }).accessToken
      = some "LOGIN" ∧
    (some "LOGIN" : Option String) ≠ some "REG" ∧
    (handleWalletConnection emptySession "W1" false
      { status := 500, success := false, access_token := none }
      { access_token := none, user := none }).accessToken = none := by
  exact ⟨rfl, by decide, rfl⟩

/-- C4 (amended): if the registration response reports success or reports
already-exists (HTTP 400), the manager performs the login call and adopts
the token and profile from the login response; only when registration
fails with a non-400 status does it adopt the registration response token
field, which may be absent — in that case (and when the adopted login
token is absent) the resulting `identityToken` is left unset.  What
`saveToken` then persists is the adopted token coerced to a string by
`localStorage.setItem`: the stored key is always present, holding the
token itself or the literal string `undefined` when no token was
adopted. -/
theorem C4_registration_adoption (s : SessionState) (w : String) (d : Bool)
    (reg : RegisterResponse) (login : LoginResponse) :
    (reg.success = true ∨ reg.status = 400 →
      (handleWalletConnection s w d reg login).accessToken
          = login.access_token ∧
      (handleWalletConnection s w d reg login).currentUser = login.user) ∧
    (reg.success = false → reg.status ≠ 400 →
      (handleWalletConnection s w d reg login).accessToken
          = reg.access_token ∧
      (handleWalletConnection s w d reg login).currentUser
          = some { wallet_address := some w }) ∧
    (handleWalletConnection s w d reg login).storedToken
        = some (((handleWalletConnection s w d reg login).accessToken).getD
            "undefined") := by
  refine ⟨?_, ?_, ?_⟩
  · rintro (h | h) <;>
      simp [handleWalletConnection, h]
  · intro h1 h2
    simp [handleWalletConnection, h1, h2]
  · by_cases h : (reg.success || reg.status == 400) = true <;>
      simp [handleWalletConnection, h]

/-- Witness for `C4_registration_adoption` at a concrete already-exists
(HTTP 400) registration response. -/
theorem C4_registration_adoption_witness :
    (handleWalletConnection emptySession "W2" true
      { status := 400, success := false, access_token := none }
      { access_token := some "TOK2"
        user := some { wallet_address := some "W2" } }).accessToken
      = some "TOK2" :=
  ((C4_registration_adoption emptySession "W2" true
    { status := 400, success := false, access_token := none }
    { access_token := some "TOK2"
      user := some { wallet_address := some "W2" } }).1 (Or.inr rfl)).1

end App

namespace App

open PaymentGateway

/-- True iff no call in the list targets a backend settlement endpoint. -/
def noSettlementCalls (calls : List NetCall) : Bool :=
  calls.all fun c => !c.isSettlement

/-- C5: confirmed.  Whenever the gateway promise rejects (cancellation) or
resolves unsuccessfully (failed authorization), neither `buyTokens` nor
`sellTokens` issues any call to `/api/trade/buy` or `/api/trade/sell`: the
flow aborts with no backend mutation. -/
theorem C5_rejection_no_settlement (tok : String) (u : Option User)
    (propertyId : String) (n : ℚ) (pricing : PropertyInfo)
    (gw : GatewayOutcome) (settle : SettleCallOutcome)
    (h : (∃ e, gw = GatewayOutcome.rejected e) ∨
         (∃ r, gw = GatewayOutcome.resolved r ∧ r.success = false)) :
    noSettlementCalls
        (buyTokens (some tok) u propertyId n pricing gw settle).1 = true ∧
    noSettlementCalls
        (sellTokens (some tok) u propertyId n pricing gw settle).1 = true := by
  obtain ⟨e, rfl⟩ | ⟨r, rfl, hr⟩ := h
  · constructor <;>
      simp [buyTokens, sellTokens, noSettlementCalls, NetCall.isSettlement]
  · constructor <;>
      simp [buyTokens, sellTokens, noSettlementCalls, NetCall.isSettlement, hr]

/-- Witness for `C5_rejection_no_settlement`: a cancelled buy issues no
settlement call. -/
theorem C5_rejection_no_settlement_witness :
    noSettlementCalls
      (buyTokens (some "tok123") none "PROP001" 10
        { total_value := 50000000, total_tokens := 1000 }
        (GatewayOutcome.rejected "User cancelled")
        (SettleCallOutcome.response { success := true })).1 = true :=
  (C5_rejection_no_settlement "tok123" none "PROP001" 10
    { total_value := 50000000, total_tokens := 1000 }
    (GatewayOutcome.rejected "User cancelled")
    (SettleCallOutcome.response { success := true })
    (Or.inl ⟨"User cancelled", rfl⟩)).1

/-- C6: the claim as stated is false.  After an approved payout, a
settlement call that throws lands in the same single `catch` of
`sellTokens` — the same `alert('Failed to sell tokens: ' + error.message)`
statement at app.js:489 — as a cancelled payout does, so that settlement
failure is not reported distinctly from a payment-cancelled condition: the
two exits share the `sellErrorCatch` site, and when the thrown message is
the string `undefined` the two alert texts are identical. -/
theorem C6_sell_thrown_settlement_report_cex :
    (sellTokens (some "tok123") none "PROP001" 10
      { total_value := 50000000, total_tokens := 1000 }
      (GatewayOutcome.resolved
        { success := true
          payment_ref := some "PAYOUT_EF56"
          order_id := "SELL_GH78" })
      (SettleCallOutcome.thrown "undefined")).2
      = SellOutcome.sellErrorCatch (some "undefined") ∧
    (sellTokens (some "tok123") none "PROP001" 10
      { total_value := 50000000, total_tokens := 1000 }
      (GatewayOutcome.rejected "User cancelled")
      (SettleCallOutcome.response { success := true })).2
      = SellOutcome.sellErrorCatch none ∧
    sellAlertText (SellOutcome.sellErrorCatch (some "undefined"))
      = sellAlertText (SellOutcome.sellErrorCatch none) := by
  exact ⟨rfl, rfl, rfl⟩

/-- C6 (amended): in the buy direction every settlement failure after an
approved payment is reported distinctly: a parsed business failure exits
through `settlementFailed` (`Purchase failed after payment: ...`) and a
thrown settlement call through `tradeErrorAlert`
(`Failed to buy tokens: ...`), both different from the payment-failed
alert and from the silent cancelled return.  In the sell direction a
parsed business failure is reported distinctly through `saleFailed`
(`Sale failed: ...`); but a settlement call that throws after an approved
payout exits through the same `sellErrorCatch` site — the same alert
statement — as a cancelled payout, with identical alert text when the
thrown message is the string `undefined`. -/
theorem C6_settlement_report_partially_distinct (tok : String)
    (u : Option User) (propertyId : String) (n : ℚ)
    (pricing : PropertyInfo) (r : PaymentResult) (data : TradeResponse)
    (msg : String) (hr : r.success = true) (hd : data.success = false) :
    (buyTokens (some tok) u propertyId n pricing
        (GatewayOutcome.resolved r) (SettleCallOutcome.response data)).2
      = BuyOutcome.settlementFailed data.error ∧
    (∀ e, BuyOutcome.settlementFailed data.error
      ≠ BuyOutcome.cancelledSilent e) ∧
    BuyOutcome.settlementFailed data.error
      ≠ BuyOutcome.paymentFailedAlert ∧
    (buyTokens (some tok) u propertyId n pricing
        (GatewayOutcome.resolved r) (SettleCallOutcome.thrown msg)).2
      = BuyOutcome.tradeErrorAlert msg ∧
    (∀ e, BuyOutcome.tradeErrorAlert msg
      ≠ BuyOutcome.cancelledSilent e) ∧
    BuyOutcome.tradeErrorAlert msg ≠ BuyOutcome.paymentFailedAlert ∧
    (sellTokens (some tok) u propertyId n pricing
        (GatewayOutcome.resolved r) (SettleCallOutcome.response data)).2
      = SellOutcome.saleFailed data.error ∧
    (∀ m, SellOutcome.saleFailed data.error
      ≠ SellOutcome.sellErrorCatch m) ∧
    SellOutcome.saleFailed data.error ≠ SellOutcome.payoutFailedAlert ∧
    (sellTokens (some tok) u propertyId n pricing
        (GatewayOutcome.resolved r) (SettleCallOutcome.thrown msg)).2
      = SellOutcome.sellErrorCatch (some msg) ∧
    (sellTokens (some tok) u propertyId n pricing
        (GatewayOutcome.rejected "User cancelled")
        (SettleCallOutcome.thrown msg)).2
      = SellOutcome.sellErrorCatch none ∧
    sellAlertText (SellOutcome.sellErrorCatch (some "undefined"))
      = sellAlertText (SellOutcome.sellErrorCatch none) := by
  refine ⟨?_, fun e => by simp, by simp, ?_, fun e => by simp, by simp,
    ?_, fun m => by simp, by simp, ?_, ?_, rfl⟩
  · simp [buyTokens, hr, hd]
  · simp [buyTokens, hr]
  · simp [sellTokens, hr, hd]
  · simp [sellTokens, hr]
  · simp [sellTokens]

/-- Witness for `C6_settlement_report_partially_distinct`: a concrete
approved payment followed by a failing settlement response reports
`settlementFailed`. -/
theorem C6_settlement_report_partially_distinct_witness :
    (buyTokens (some "tok123") none "PROP001" 10
      { total_value := 50000000, total_tokens := 1000 }
      (GatewayOutcome.resolved
        { success := true
          payment_ref := some "TXN_AB12"
          order_id := "ORDER_CD34" })
      (SettleCallOutcome.response
        { success := false, error := some "Insufficient tokens" })).2
      = BuyOutcome.settlementFailed (some "Insufficient tokens") :=
  (C6_settlement_report_partially_distinct "tok123" none "PROP001" 10
    { total_value := 50000000, total_tokens := 1000 }
    { success := true
      payment_ref := some "TXN_AB12"
      order_id := "ORDER_CD34" }
    { success := false, error := some "Insufficient tokens" }
    "boom" rfl rfl).1

/-- C7: confirmed.  With no identity token (`accessToken` null) both
trading functions exit immediately through the authorization alert and
issue no calls at all: no pricing fetch, no gateway invocation, no
settlement call. -/
theorem C7_unauthenticated_no_calls (u : Option User)
    (propertyId : String) (n : ℚ) (pricing : PropertyInfo)
    (gw : GatewayOutcome) (settle : SettleCallOutcome) :
    buyTokens none u propertyId n pricing gw settle
      = ([], BuyOutcome.notConnected) ∧
    sellTokens none u propertyId n pricing gw settle
      = ([], SellOutcome.notConnected) :=
  ⟨rfl, rfl⟩

/-- C8: confirmed.  The amount handed to the gateway by either trading
function is exactly `total_value / total_tokens * tokenAmount` computed
from the pricing response fetched in the same invocation; in particular
with `total_value = 50000000`, `total_tokens = 1000` the unit price is
`50000`, and with `tokenAmount = 10` both directions send `500000`. -/
theorem C8_gateway_amount (tok : String) (u : Option User)
    (propertyId : String) (n : ℚ) (pricing : PropertyInfo)
    (gw : GatewayOutcome) (settle : SettleCallOutcome) :
    gatewayAmount? (buyTokens (some tok) u propertyId n pricing gw settle).1
      = some (pricing.total_value / pricing.total_tokens * n) ∧
    gatewayAmount? (sellTokens (some tok) u propertyId n pricing gw settle).1
      = some (pricing.total_value / pricing.total_tokens * n) ∧
    ({ total_value := 50000000, total_tokens := 1000 } : PropertyInfo).total_value
        / ({ total_value := 50000000, total_tokens := 1000 } : PropertyInfo).total_tokens
      = 50000 ∧
    gatewayAmount? (buyTokens (some tok) u propertyId 10
        { total_value := 50000000, total_tokens := 1000 } gw settle).1
      = some 500000 ∧
    gatewayAmount? (sellTokens (some tok) u propertyId 10
        { total_value := 50000000, total_tokens := 1000 } gw settle).1
      = some 500000 := by
  have key : ∀ (pr : PropertyInfo) (m : ℚ),
      gatewayAmount?
          (buyTokens (some tok) u propertyId m pr gw settle).1
        = some (pr.total_value / pr.total_tokens * m) ∧
      gatewayAmount?
          (sellTokens (some tok) u propertyId m pr gw settle).1
        = some (pr.total_value / pr.total_tokens * m) := by
    intro pr m
    cases gw with
    | rejected e =>
        constructor <;> simp [buyTokens, sellTokens, gatewayAmount?]
    | resolved r =>
        by_cases hr : r.success = false
        · constructor <;> simp [buyTokens, sellTokens, gatewayAmount?, hr]
        · cases settle with
          | thrown msg =>
              constructor <;>
                simp [buyTokens, sellTokens, gatewayAmount?, hr]
          | response data =>
              by_cases hs : data.success = true <;>
                constructor <;>
                  simp [buyTokens, sellTokens, gatewayAmount?, hr, hs]
  refine ⟨(key pricing n).1, (key pricing n).2, by norm_num, ?_, ?_⟩
  · rw [(key { total_value := 50000000, total_tokens := 1000 } 10).1]
    norm_num
  · rw [(key { total_value := 50000000, total_tokens := 1000 } 10).2]
    norm_num

end App
